import Mathlib

/-!
Verification development for the PhishSchool repository.

The repository is a phishing-awareness trainer: a React frontend
(`client/src`), a Supabase relational schema (`backend/supabase_schema.sql`)
and a FastAPI backend.  The backend service modules
(`services/supabase_service.py`: `CampaignService`, `TrackingService`, the
schedule generator) are referenced by the setup guides but their code is not
part of the sources at hand; where a property depends on them they are
modelled from the specification, and each such definition says so in its doc
comment.  Everything else is translated directly from the sources:

* `Scores` table operations — `AuthProvider.ensureScoresRow`
  (`context/AuthContext` provider file) and `Learn.tsx` (`loadStats`,
  `handleAnswer`, leaderboard rank queries);
* `Users` upsert payload — `Campaigns.tsx` (`handleSave`);
* table constraints and cascade behaviour — `backend/supabase_schema.sql`.
-/

namespace PhishSchool

/-! ## The `Scores` table (frontend quiz feature)

`Scores` rows are keyed by `score_id` (the auth user id) and hold the two
quiz counters.  The table is modelled as a list of rows; Supabase `upsert`
with `onConflict: 'score_id'` replaces the row with the matching key, and
with `ignoreDuplicates: true` it leaves an existing row untouched. -/

/-- Row of the `Scores` table: `score_id`, `learn_correct`, `learn_attempted`. -/
structure ScoreRow where
  score_id : String
  learn_correct : Nat
  learn_attempted : Nat
deriving DecidableEq, Repr

/-- The `Scores` table, one row per user id. -/
abbrev ScoresTable := List ScoreRow

/-- Lookup of the row keyed by `uid` (Supabase `.eq('score_id', uid).maybeSingle()`). -/
def findScore (t : ScoresTable) (uid : String) : Option ScoreRow :=
  t.find? (fun r => r.score_id == uid)

/-- Whether a row with key `uid` exists. -/
def hasScore (t : ScoresTable) (uid : String) : Bool :=
  (findScore t uid).isSome

/-- Supabase `upsert(row, { onConflict: 'score_id' })`: replace the row with
the conflicting key if one exists, otherwise insert. -/
def upsertScore (t : ScoresTable) (r : ScoreRow) : ScoresTable :=
  if hasScore t r.score_id then
    t.map (fun r0 => if r0.score_id == r.score_id then r else r0)
  else
    t ++ [r]

/-- Supabase `upsert(row, { onConflict: 'score_id', ignoreDuplicates: true })`
(SQL `ON CONFLICT DO NOTHING`): insert only when the key is absent. -/
def upsertScoreIgnoreDuplicates (t : ScoresTable) (r : ScoreRow) : ScoresTable :=
  if hasScore t r.score_id then t else t ++ [r]

/-- `ensureScoresRow` from the `AuthProvider` component: upsert a default
all-zero row with `ignoreDuplicates: true`, so existing stats are never
overwritten. -/
def ensureScoresRow (t : ScoresTable) (uid : String) : ScoresTable :=
  upsertScoreIgnoreDuplicates t { score_id := uid, learn_correct := 0, learn_attempted := 0 }

/-! ## `Learn.tsx` answer recording and rank computation -/

/-- Client-side component state of the Learn page: the `learnAttempts` and
`learnCorrect` React state variables, loaded from the store by `loadStats`. -/
structure LearnSession where
  learnAttempts : Nat
  learnCorrect : Nat
deriving DecidableEq, Repr

/-- The row written by `handleAnswer` in `Learn.tsx`: `newAttempts` is the
local `learnAttempts + 1` and `newCorrect` is incremented exactly when
`currentMessage.content_type === answer`. -/
def answerUpsertRow (uid : String) (s : LearnSession) (contentType answer : String) : ScoreRow :=
  { score_id := uid
  , learn_correct := if contentType == answer then s.learnCorrect + 1 else s.learnCorrect
  , learn_attempted := s.learnAttempts + 1 }

/-- Store effect of `handleAnswer` in `Learn.tsx`: upsert the row computed
from the *local* session state with `onConflict: 'score_id'`. -/
def handleAnswer (t : ScoresTable) (uid : String) (s : LearnSession)
    (contentType answer : String) : ScoresTable :=
  upsertScore t (answerUpsertRow uid s contentType answer)

/-- Rank computed by `loadStats` in `Learn.tsx`: the count of `Scores` rows
with `.gt('learn_correct', userCorrect)`, plus one. -/
def loadStatsRank (t : ScoresTable) (userCorrect : Nat) : Nat :=
  (t.filter (fun r => userCorrect < r.learn_correct)).length + 1

/-- Rank recomputed by `handleAnswer` in `Learn.tsx` after a successful
upsert: the count of rows with `.gt('learn_correct', newCorrect)`, plus one. -/
def handleAnswerRank (t : ScoresTable) (newCorrect : Nat) : Nat :=
  (t.filter (fun r => newCorrect < r.learn_correct)).length + 1

/-! ## `Campaigns.tsx` preference saving -/

/-- The slice of the signed-in auth user read by `handleSave`:
`user.id`, `user.email`, and the two profile fields of `user.user_metadata`. -/
structure AuthUser where
  id : String
  email : Option String
  meta_first_name : Option String
  meta_last_name : Option String
deriving DecidableEq, Repr

/-- The `Users` upsert payload built by `handleSave` in `Campaigns.tsx`. -/
structure UsersUpsertPayload where
  user_id : String
  opted_in : Bool
  frequency : String
  email : Option String
  first_name : Option String
  last_name : Option String
deriving DecidableEq, Repr

/-- JavaScript truthiness filter used by `handleSave`: a string field is added
to the payload only when it is present and non-empty. -/
def truthyString (v : Option String) : Option String :=
  match v with
  | none => none
  | some s => if s = "" then none else some s

/-- Payload construction of `handleSave` in `Campaigns.tsx`: `frequency` is
the selected value when opted in and the literal `'weekly'` otherwise;
`user_id` is always the signed-in user's id. -/
def handleSavePayload (u : AuthUser) (optedIn : Bool) (frequency : String) :
    UsersUpsertPayload :=
  { user_id := u.id
  , opted_in := optedIn
  , frequency := if optedIn then frequency else "weekly"
  , email := truthyString u.email
  , first_name := truthyString u.meta_first_name
  , last_name := truthyString u.meta_last_name }

/-- The `onConflict` column name passed by `handleSave` to the `Users` upsert. -/
def handleSaveConflictKey : String := "user_id"

/-! ## Schema rows (`backend/supabase_schema.sql`)

Nullable SQL columns become `Option` fields; `NOT NULL` columns are plain.
Timestamps are abstracted to `Nat`. -/

/-- Row of the `campaigns` table.  `user_id` and `name` are `NOT NULL`;
`status`, `email_frequency`, `difficulty_level`, `preferred_themes`,
`email_count` and `duration_days` are nullable columns with defaults. -/
structure CampaignRow where
  id : String
  user_id : String
  name : String
  status : Option String
  email_frequency : Option String
  difficulty_level : Option String
  preferred_themes : Option (List String)
  email_count : Option Int
  duration_days : Option Int
deriving DecidableEq, Repr

/-- SQL `CHECK (col IN (...))` semantics for a nullable column: a `NULL`
value makes the predicate `NULL`, which does not violate the constraint. -/
def checkIn (v : Option String) (dom : List String) : Bool :=
  match v with
  | none => true
  | some s => dom.contains s

/-- Conjunction of all constraints the `campaigns` table declaration places
on a single row (schema lines 14-26): the three `CHECK (... IN (...))`
clauses.  `NOT NULL` on `user_id`/`name` is carried by the field types, and
the schema declares no constraint at all on `preferred_themes`,
`email_count` or `duration_days`. -/
def campaignsRowOk (r : CampaignRow) : Bool :=
  checkIn r.status ["active", "paused", "completed"] &&
  checkIn r.email_frequency ["daily", "weekly", "monthly"] &&
  checkIn r.difficulty_level ["easy", "medium", "hard"]

/-- Attribute domains as the specification words them (refinement target, not
translated from the source): every enumerated attribute present and in range,
`preferred_themes` a non-empty set, `email_count ≥ 1`, `duration_days ≥ 1`. -/
def specCampaignDomainsOk (r : CampaignRow) : Bool :=
  (match r.status with
   | some s => ["active", "paused", "completed"].contains s
   | none => false) &&
  (match r.email_frequency with
   | some s => ["daily", "weekly", "monthly"].contains s
   | none => false) &&
  (match r.difficulty_level with
   | some s => ["easy", "medium", "hard"].contains s
   | none => false) &&
  (match r.preferred_themes with
   | some ts => !ts.isEmpty
   | none => false) &&
  (match r.email_count with
   | some n => 1 ≤ n
   | none => false) &&
  (match r.duration_days with
   | some n => 1 ≤ n
   | none => false)

/-- Row of the `campaign_emails` table (schema lines 29-44). -/
structure EmailRow where
  id : String
  campaign_id : String
  email_type : String
  subject : String
  sender_email : String
  recipient_email : String
  body : String
  phishing_indicators : List String
  explanation : String
  scheduled_send_time : Nat
  sent_at : Option Nat
  clicked_at : Option Nat
  click_tracking_id : String
deriving DecidableEq, Repr

/-- Row of the `email_tracking` click log (schema lines 47-57). -/
structure TrackingRow where
  id : String
  tracking_id : String
  email_id : String
  campaign_id : String
  clicked_at : Nat
  ip_address : String
  user_agent : String
  phishing_reported : Bool
  reported_at : Option Nat
deriving DecidableEq, Repr

/-- The three campaign-system tables that participate in the
campaign → campaign_emails → email_tracking cascade. -/
structure Store where
  campaigns : List CampaignRow
  emails : List EmailRow
  tracking : List TrackingRow
deriving DecidableEq, Repr

/-- `DELETE FROM campaigns WHERE id = cid` under the schema's
`ON DELETE CASCADE` clauses: the campaign row goes, every `campaign_emails`
row referencing it goes (FK on `campaign_id`), and every `email_tracking`
row referencing either the campaign or one of the deleted emails goes
(`email_tracking` carries cascading FKs on both `campaign_id` and
`email_id`). -/
def deleteCampaign (s : Store) (cid : String) : Store :=
  let deletedEmails := s.emails.filter (fun e => e.campaign_id == cid)
  { campaigns := s.campaigns.filter (fun c => !(c.id == cid))
  , emails := s.emails.filter (fun e => !(e.campaign_id == cid))
  , tracking := s.tracking.filter (fun t =>
      !(t.campaign_id == cid) && !(deletedEmails.any (fun e => e.id == t.email_id))) }

/-! ## Store operations on `campaign_emails` (token uniqueness)

The Content Orchestrator, Dispatcher and Tracking Service live in the backend
service modules that are not among the sources at hand, so the operations
below are modelled from the specification; the constraints they respect —
`PRIMARY KEY (id)` and `UNIQUE (click_tracking_id)` — are taken from the
schema, which rejects a conflicting insert. -/

/-- Modelled from the spec: the store operations that touch `campaign_emails`
(the backend `CampaignService`/`TrackingService`/Dispatcher code is absent
from the sources).  Creation inserts a fresh row (spec §4.2), the Dispatcher
stamps `sent_at` (§4.3), the Tracking Service sets `clicked_at` on first
click (§4.4), and campaign deletion cascades (§6). -/
inductive EmailsOp where
  | insertEmail (e : EmailRow)
  | markSent (eid : String) (t : Nat)
  | recordFirstClick (tid : String) (t : Nat)
  | deleteCampaignEmails (cid : String)
deriving DecidableEq, Repr

/-- Modelled from the spec: effect of one operation on the `campaign_emails`
table.  An insert violating the schema's `PRIMARY KEY (id)` or
`UNIQUE (click_tracking_id)` constraint is rejected by the store and leaves
the table unchanged (the orchestrator's collision retry then re-mints the
token, spec §4.2); updates write only `sent_at` respectively `clicked_at`. -/
def applyEmailsOp (s : List EmailRow) (op : EmailsOp) : List EmailRow :=
  match op with
  | .insertEmail e =>
      if s.any (fun e0 => e0.id == e.id || e0.click_tracking_id == e.click_tracking_id)
      then s
      else s ++ [e]
  | .markSent eid t =>
      s.map (fun e => if e.id == eid then { e with sent_at := some t } else e)
  | .recordFirstClick tid t =>
      s.map (fun e =>
        if e.click_tracking_id == tid && e.clicked_at == none
        then { e with clicked_at := some t } else e)
  | .deleteCampaignEmails cid =>
      s.filter (fun e => !(e.campaign_id == cid))

/-- Modelled from the spec: the `campaign_emails` table states reachable from
the empty table through the store operations. -/
inductive ReachableEmails : List EmailRow → Prop
  | empty : ReachableEmails []
  | step (s : List EmailRow) (op : EmailsOp) :
      ReachableEmails s → ReachableEmails (applyEmailsOp s op)

/-! ## Schedule Generator (spec §4.1) -/

/-- The `email_frequency` enumeration of the schema. -/
inductive EmailFrequency where
  | daily
  | weekly
  | monthly
deriving DecidableEq, Repr

/-- Minimum inter-email spacing implied by a frequency, in days
(spec §4.1: 1 day / 7 days / 30 days respectively). -/
def frequencyPeriodDays : EmailFrequency → Nat
  | .daily => 1
  | .weekly => 7
  | .monthly => 30

/-- Campaign configuration consumed by the Schedule Generator. -/
structure ScheduleConfig where
  campaign_id : String
  created_at : Nat
  email_frequency : EmailFrequency
  email_count : Nat
  duration_days : Nat
  preferred_themes : List String
deriving DecidableEq, Repr

/-- One planned send slot: a time (minutes since the epoch) and a theme. -/
structure Slot where
  slot_time : Nat
  theme : String
deriving DecidableEq, Repr

/-- Modelled from the spec: the largest slot count the
`duration_days`/`email_frequency` combination supports without spacing two
slots closer than the frequency period (§3: daily cannot schedule more slots
than there are days; §4.1).  A single slot needs no inter-slot spacing, so
the bound is never below one. -/
def maxSupportedSlots (cfg : ScheduleConfig) : Nat :=
  max 1 (cfg.duration_days / frequencyPeriodDays cfg.email_frequency)

/-- Theme assignment for slot `i` (spec §4.1): round-robin over
`preferred_themes`, cycling when there are more slots than themes. -/
def themeAt (themes : List String) (i : Nat) : String :=
  themes.getD (i % themes.length) ""

/-- Modelled from the spec: the Schedule Generator (the backend schedule code
is absent from the sources).  It clamps `email_count` to `maxSupportedSlots`,
partitions `[created_at, created_at + duration_days)` into that many
approximately evenly spaced points, assigns themes round-robin, and reports
the non-fatal `ScheduleOverflow` condition as a flag alongside the slots
(spec §4.1, §7). -/
def generateSchedule (cfg : ScheduleConfig) : List Slot × Bool :=
  let maxN := maxSupportedSlots cfg
  let overflow : Bool := decide (maxN < cfg.email_count)
  let n := min cfg.email_count maxN
  let spacing := cfg.duration_days * 1440 / n
  ((List.range n).map (fun i =>
      { slot_time := cfg.created_at + i * spacing
      , theme := themeAt cfg.preferred_themes i }),
   overflow)

/-! ## Tracking Service (spec §4.4) -/

/-- State touched by the Tracking Service: the `campaign_emails` rows and the
append-only `email_tracking` log. -/
structure TrackState where
  emails : List EmailRow
  tracking : List TrackingRow
deriving DecidableEq, Repr

/-- Result of a tracking request.  `notFound` carries no data at all: an
unmatched token yields nothing that depends on the token (spec §4.4, §7). -/
inductive TrackResult where
  | ok (campaign_id email_id subject sender_email : String)
       (phishing_indicators : List String) (explanation : String)
       (clicked_at : Nat) : TrackResult
  | notFound : TrackResult
deriving DecidableEq, Repr

/-- Modelled from the spec: `TrackingService.record_email_click` (backend
`services/supabase_service.py`, absent from the sources; spec §4.4).
Resolves the token against `campaign_emails`; an unmatched token fails with
`TrackingNotFound` and the state is returned unchanged.  On a match the
first click stamps `clicked_at` and every invocation appends one log row
(log row ids are abstracted as the log position). -/
def record_email_click (s : TrackState) (tid ip ua : String) (now : Nat) :
    TrackState × TrackResult :=
  match s.emails.find? (fun e => e.click_tracking_id == tid) with
  | none => (s, .notFound)
  | some e =>
      let firstClick := e.clicked_at == none
      let emails' :=
        if firstClick then
          s.emails.map (fun e0 =>
            if e0.id == e.id then { e0 with clicked_at := some now } else e0)
        else s.emails
      let logRow : TrackingRow :=
        { id := toString s.tracking.length
        , tracking_id := tid
        , email_id := e.id
        , campaign_id := e.campaign_id
        , clicked_at := now
        , ip_address := ip
        , user_agent := ua
        , phishing_reported := false
        , reported_at := none }
      ({ emails := emails', tracking := s.tracking ++ [logRow] },
       .ok e.campaign_id e.id e.subject e.sender_email e.phishing_indicators
          e.explanation (match e.clicked_at with | some t => t | none => now))

/-! ## Concurrent click recording (spec §4.4, §9)

Spec §9 records that the first-click requirement is "implemented in the
source via unconditional update".  The machine below makes each store access
of one `record_email_click` invocation an atomic step, so overlapping
invocations can interleave: read `clicked_at`, then (if the read saw null)
unconditionally write it, then append the log row. -/

/-- Inputs of one in-flight `record_email_click` invocation. -/
structure ClickInvocation where
  tid : String
  ip : String
  ua : String
  time : Nat
deriving DecidableEq, Repr

/-- Progress of one in-flight invocation: `pc = 0` before the read, `1`
before the (conditionally taken, itself unconditional) write, `2` before the
log append, `3` done.  `sawNull` remembers whether the read found
`clicked_at` null — the decision that fires the first-click path. -/
structure InvProgress where
  pc : Nat
  sawNull : Bool
deriving DecidableEq, Repr

/-- Configuration of the interleaved execution: the store plus one program
state per invocation. -/
structure ConcState where
  store : TrackState
  invs : List (ClickInvocation × InvProgress)
deriving DecidableEq, Repr

/-- Modelled from the spec: one atomic step of invocation `i` of the
unconditional-update implementation described in spec §9.  The read step
records whether `clicked_at` was null; the write step, taken exactly when
the (possibly stale) read saw null, overwrites `clicked_at` without any
compare-and-swap; the append step adds the invocation's log row. -/
def clickStep (c : ConcState) (i : Nat) : ConcState :=
  match c.invs.get? i with
  | none => c
  | some (inv, p) =>
      let setProgress (p' : InvProgress) (st : TrackState) : ConcState :=
        { store := st
        , invs := c.invs.set i (inv, p') }
      match p.pc with
      | 0 =>
          match c.store.emails.find? (fun e => e.click_tracking_id == inv.tid) with
          | none => setProgress { p with pc := 3 } c.store
          | some e => setProgress { pc := 1, sawNull := e.clicked_at == none } c.store
      | 1 =>
          if p.sawNull then
            setProgress { p with pc := 2 }
              { c.store with
                emails := c.store.emails.map (fun e0 =>
                  if e0.click_tracking_id == inv.tid
                  then { e0 with clicked_at := some inv.time } else e0) }
          else
            setProgress { p with pc := 2 } c.store
      | 2 =>
          let logRow : TrackingRow :=
            { id := toString c.store.tracking.length
            , tracking_id := inv.tid
            , email_id := ""
            , campaign_id := ""
            , clicked_at := inv.time
            , ip_address := inv.ip
            , user_agent := inv.ua
            , phishing_reported := false
            , reported_at := none }
          setProgress { p with pc := 3 }
            { c.store with tracking := c.store.tracking ++ [logRow] }
      | _ => c

/-- Run the interleaved machine under an explicit schedule: a list naming, at
each step, the invocation that performs its next atomic store access. -/
def runClickSchedule (c : ConcState) (sched : List Nat) : ConcState :=
  sched.foldl clickStep c

/-- Number of invocations that completed having taken the first-click path
(their read saw `clicked_at = null`, so they performed the write and the
first-click side effect). -/
def firstClickCount (c : ConcState) : Nat :=
  (c.invs.filter (fun q => q.2.pc == 3 && q.2.sawNull)).length

/-! ## Concrete fixtures used by witnesses and counterexamples -/

/-- A persisted campaign email of campaign `c1` with tracking token `tok-a`,
sent but not yet clicked. -/
def emailA : EmailRow :=
  { id := "e1", campaign_id := "c1", email_type := "phishing"
  , subject := "Verify your account", sender_email := "security@bank.example"
  , recipient_email := "u1@example.com", body := "click the link"
  , phishing_indicators := ["urgent language"], explanation := "urgency tactic"
  , scheduled_send_time := 0, sent_at := some 5, clicked_at := none
  , click_tracking_id := "tok-a" }

/-- A persisted campaign email of campaign `c2` with tracking token `tok-b`. -/
def emailB : EmailRow :=
  { id := "e2", campaign_id := "c2", email_type := "legitimate"
  , subject := "Lunch?", sender_email := "friend@example.com"
  , recipient_email := "u2@example.com", body := "see you at noon"
  , phishing_indicators := [], explanation := ""
  , scheduled_send_time := 0, sent_at := some 6, clicked_at := none
  , click_tracking_id := "tok-b" }

/-- A click-log row for `emailA`. -/
def trackA : TrackingRow :=
  { id := "t1", tracking_id := "tok-a", email_id := "e1", campaign_id := "c1"
  , clicked_at := 7, ip_address := "10.0.0.1", user_agent := "ua1"
  , phishing_reported := false, reported_at := none }

/-- A click-log row for `emailB`. -/
def trackB : TrackingRow :=
  { id := "t2", tracking_id := "tok-b", email_id := "e2", campaign_id := "c2"
  , clicked_at := 8, ip_address := "10.0.0.2", user_agent := "ua2"
  , phishing_reported := false, reported_at := none }

/-- Campaign `c1`, owned by user `u1`, with every default-shaped attribute. -/
def campA : CampaignRow :=
  { id := "c1", user_id := "u1", name := "training"
  , status := some "active", email_frequency := some "weekly"
  , difficulty_level := some "medium", preferred_themes := some ["bank"]
  , email_count := some 5, duration_days := some 30 }

/-- Campaign `c2`, owned by user `u2`. -/
def campB : CampaignRow :=
  { id := "c2", user_id := "u2", name := "refresher"
  , status := some "paused", email_frequency := some "daily"
  , difficulty_level := some "easy", preferred_themes := some ["job"]
  , email_count := some 3, duration_days := some 7 }

/-- A store holding two campaigns with one email and one log row each. -/
def exStore : Store :=
  { campaigns := [campA, campB], emails := [emailA, emailB]
  , tracking := [trackA, trackB] }

/-- A tracking-service state holding `emailA` and its log row. -/
def exTrackState : TrackState :=
  { emails := [emailA], tracking := [trackA] }

/-- A campaign row with `email_count = 0`: every value the `campaigns` table
constrains is in range, yet the row violates the spec's `email_count ≥ 1`. -/
def campaignRowBad : CampaignRow :=
  { id := "c9", user_id := "u9", name := "degenerate"
  , status := some "active", email_frequency := some "weekly"
  , difficulty_level := some "medium", preferred_themes := some ["bank"]
  , email_count := some 0, duration_days := some 30 }

/-- The spec's overflow scenario: `email_frequency = daily`,
`duration_days = 3`, `email_count = 10`. -/
def overflowConfig : ScheduleConfig :=
  { campaign_id := "c1", created_at := 0, email_frequency := .daily
  , email_count := 10, duration_days := 3
  , preferred_themes := ["bank", "job", "friend"] }

/-- Two concurrent `record_email_click` invocations on token `tok-a` of a
store where `emailA.clicked_at` is still null. -/
def concClickInit : ConcState :=
  { store := { emails := [emailA], tracking := [] }
  , invs := [ (⟨"tok-a", "10.0.0.1", "ua1", 10⟩, ⟨0, false⟩)
            , (⟨"tok-a", "10.0.0.2", "ua2", 11⟩, ⟨0, false⟩) ] }

/-! ## Helper lemmas -/

/-- Lookup after a merging upsert of `r`: when a row with `r.score_id`
already exists, the lookup of that key finds the replacement `r`. -/
theorem findScore_upsertScore_self (t : ScoresTable) (r : ScoreRow)
    (h : hasScore t r.score_id = true) :
    findScore (upsertScore t r) r.score_id = some r := by
  unfold upsertScore
  rw [if_pos h]
  unfold hasScore findScore at h
  unfold findScore
  induction t with
  | nil => simp at h
  | cons hd tl ih =>
      simp only [List.map_cons]
      by_cases hh : (hd.score_id == r.score_id) = true
      · rw [if_pos hh, List.find?_cons_of_pos _ (by simp)]
      · rw [if_neg hh, List.find?_cons_of_neg _ (by simp [hh])]
        rw [List.find?_cons_of_neg _ (by simp [hh])] at h
        exact ih h

/-! ## Claims -/

/-- Claim C9: saving campaign preferences while opted out always persists
`frequency = 'weekly'` regardless of the frequency selected in the UI,
saving while opted in persists the selected frequency unchanged, and the
payload always carries the signed-in user's id, with `user_id` as the
upsert conflict key. -/
theorem handleSave_frequency_and_conflict_key (u : AuthUser) (optedIn : Bool)
    (freq : String) :
    (handleSavePayload u false freq).frequency = "weekly" ∧
    (handleSavePayload u true freq).frequency = freq ∧
    (handleSavePayload u optedIn freq).user_id = u.id ∧
    handleSaveConflictKey = "user_id" :=
  ⟨rfl, rfl, rfl, rfl⟩

/-- Claim C10: for a user who already has a `Scores` row, `ensureScoresRow`
leaves the table — in particular that row's `learn_correct` and
`learn_attempted` — unchanged; when no row exists for the user id it inserts
the row with both counters zero. -/
theorem ensureScoresRow_frame (t : ScoresTable) (uid : String) :
    (hasScore t uid = true → ensureScoresRow t uid = t) ∧
    (hasScore t uid = false →
      ensureScoresRow t uid =
        t ++ [{ score_id := uid, learn_correct := 0, learn_attempted := 0 }]) := by
  constructor <;> intro h <;>
    simp [ensureScoresRow, upsertScoreIgnoreDuplicates, h]

/-- Witness for C10: with an existing row `("u1", 3, 5)` the table is
unchanged. -/
theorem ensureScoresRow_frame_witness :
    hasScore [⟨"u1", 3, 5⟩] "u1" = true ∧
    ensureScoresRow [⟨"u1", 3, 5⟩] "u1" = [⟨"u1", 3, 5⟩] :=
  ⟨by decide, (ensureScoresRow_frame [⟨"u1", 3, 5⟩] "u1").1 (by decide)⟩

/-- Claim C8: the displayed leaderboard rank equals one plus the number of
`Scores` rows whose `learn_correct` is strictly greater than the current
user's `learn_correct`, on the initial stats load and after recording an
answer alike; consequently equal `learn_correct` values yield the same
rank. -/
theorem displayedRank_one_plus_greater_count (t : ScoresTable) (a b : Nat)
    (h : a = b) :
    loadStatsRank t a = t.countP (fun r => decide (a < r.learn_correct)) + 1 ∧
    handleAnswerRank t b = t.countP (fun r => decide (b < r.learn_correct)) + 1 ∧
    loadStatsRank t a = handleAnswerRank t b := by
  subst h
  refine ⟨?_, ?_, rfl⟩ <;>
    simp [loadStatsRank, handleAnswerRank, List.countP_eq_length_filter]

/-- Witness for C8: two users on the same table with equal `learn_correct`
share the displayed rank. -/
theorem displayedRank_witness :
    (3 : Nat) = 3 ∧
    loadStatsRank [⟨"u1", 3, 5⟩, ⟨"u2", 7, 9⟩] 3 =
      handleAnswerRank [⟨"u1", 3, 5⟩, ⟨"u2", 7, 9⟩] 3 :=
  ⟨rfl, (displayedRank_one_plus_greater_count [⟨"u1", 3, 5⟩, ⟨"u2", 7, 9⟩] 3 3 rfl).2.2⟩

/-- Claim C7 counterexample: `handleAnswer` upserts totals computed from the
client's local session state, so concurrently recorded answers are not
monotonic increments.  Starting from the row `("u1", 0, 0)`: one recorded
correct answer from the snapshot `(0, 0)` leaves `learn_attempted = 1`; a
second recorded answer from the same stale snapshot leaves it at `1` instead
of `2` (the increment is lost); and against a stored value of `3` an answer
recorded from snapshot `(0, 0)` drops `learn_attempted` from `3` to `1`
(the counter decreases). -/
theorem handleAnswer_concurrent_counterexample :
    Option.map (fun r => r.learn_attempted)
      (findScore (handleAnswer [⟨"u1", 0, 0⟩] "u1" ⟨0, 0⟩ "phishing" "phishing") "u1")
      = some 1 ∧
    Option.map (fun r => r.learn_attempted)
      (findScore (handleAnswer
        (handleAnswer [⟨"u1", 0, 0⟩] "u1" ⟨0, 0⟩ "phishing" "phishing")
        "u1" ⟨0, 0⟩ "phishing" "phishing") "u1") = some 1 ∧
    Option.map (fun r => r.learn_attempted)
      (findScore (handleAnswer [⟨"u1", 3, 3⟩] "u1" ⟨0, 0⟩ "phishing" "phishing") "u1")
      = some 1 := by
  decide

/-- Claim C7 amended: when the client's loaded session state agrees with the
stored row (no interleaved writer), recording an answer sets the stored row
to `learn_attempted + 1`, incrementing `learn_correct` exactly when the
chosen answer equals the message's `content_type`; under concurrent answers
the unconditional upsert of locally computed totals gives no monotonicity
guarantee. -/
theorem handleAnswer_sequential_increment (t : ScoresTable) (uid : String)
    (s : LearnSession) (ct ans : String)
    (h : findScore t uid = some
      { score_id := uid, learn_correct := s.learnCorrect
      , learn_attempted := s.learnAttempts }) :
    findScore (handleAnswer t uid s ct ans) uid = some
      { score_id := uid
      , learn_correct := if ct == ans then s.learnCorrect + 1 else s.learnCorrect
      , learn_attempted := s.learnAttempts + 1 } := by
  have hs : hasScore t uid = true := by
    unfold hasScore
    rw [h]
    rfl
  have := findScore_upsertScore_self t (answerUpsertRow uid s ct ans) (by simpa [answerUpsertRow] using hs)
  simpa [handleAnswer, answerUpsertRow] using this

/-- Witness for the amended C7: a session in sync with the stored row
`("u1", 2, 5)` records a correct answer and the stored row becomes
`("u1", 3, 6)`. -/
theorem handleAnswer_sequential_increment_witness :
    findScore [⟨"u1", 2, 5⟩] "u1" = some ⟨"u1", 2, 5⟩ ∧
    findScore (handleAnswer [⟨"u1", 2, 5⟩] "u1" ⟨5, 2⟩ "phishing" "phishing") "u1"
      = some ⟨"u1", 3, 6⟩ := by
  constructor
  · decide
  · have h := handleAnswer_sequential_increment [⟨"u1", 2, 5⟩] "u1" ⟨5, 2⟩
      "phishing" "phishing" (by decide)
    rw [h]
    decide

/-- Claim C5 counterexample: the `campaigns` table declaration accepts the
row `campaignRowBad`, whose `email_count` is `0` — the schema has `CHECK`
clauses only for `status`, `email_frequency` and `difficulty_level`, so the
spec's `email_count ≥ 1`, `duration_days ≥ 1` and non-empty
`preferred_themes` domains are not enforced and a violating row can be
persisted. -/
theorem campaigns_domains_counterexample :
    campaignsRowOk campaignRowBad = true ∧
    specCampaignDomainsOk campaignRowBad = false := by
  decide

/-- Claim C5 amended: every row the `campaigns` table declaration accepts
satisfies the three enumerated domains for whichever of `status`,
`email_frequency` and `difficulty_level` are present; the bounds
`email_count ≥ 1` and `duration_days ≥ 1` and the non-emptiness of
`preferred_themes` are not schema-enforced. -/
theorem campaignsRowOk_enum_domains (r : CampaignRow)
    (h : campaignsRowOk r = true) :
    (∀ s, r.status = some s → s ∈ ["active", "paused", "completed"]) ∧
    (∀ s, r.email_frequency = some s → s ∈ ["daily", "weekly", "monthly"]) ∧
    (∀ s, r.difficulty_level = some s → s ∈ ["easy", "medium", "hard"]) := by
  unfold campaignsRowOk checkIn at h
  simp only [Bool.and_eq_true] at h
  obtain ⟨⟨h1, h2⟩, h3⟩ := h
  refine ⟨fun s hs => ?_, fun s hs => ?_, fun s hs => ?_⟩
  · rw [hs] at h1
    simpa using h1
  · rw [hs] at h2
    simpa using h2
  · rw [hs] at h3
    simpa using h3

/-- Witness for the amended C5: `campA` passes the table constraints and its
`status` value lies in the declared domain. -/
theorem campaignsRowOk_enum_domains_witness :
    campaignsRowOk campA = true ∧
    "active" ∈ ["active", "paused", "completed"] :=
  ⟨by decide, (campaignsRowOk_enum_domains campA (by decide)).1 "active" rfl⟩

/-- Claim C3: whenever `email_count` exceeds what the
duration/frequency combination supports, the Schedule Generator clamps the
slot count to that maximum and reports the non-fatal `ScheduleOverflow`
condition alongside the slots. -/
theorem generateSchedule_clamps_on_overflow (cfg : ScheduleConfig)
    (h : maxSupportedSlots cfg < cfg.email_count) :
    (generateSchedule cfg).1.length = maxSupportedSlots cfg ∧
    (generateSchedule cfg).2 = true := by
  unfold generateSchedule
  constructor
  · simp [Nat.min_eq_right (Nat.le_of_lt h)]
  · simp [h]

/-- Witness for C3: the spec scenario `daily / 3 days / 10 emails` overflows
and clamps to exactly 3 slots. -/
theorem generateSchedule_clamps_witness :
    maxSupportedSlots overflowConfig < overflowConfig.email_count ∧
    (generateSchedule overflowConfig).1.length = 3 ∧
    (generateSchedule overflowConfig).2 = true := by
  have h := generateSchedule_clamps_on_overflow overflowConfig (by decide)
  refine ⟨by decide, ?_, h.2⟩
  rw [h.1]
  decide

/-- Claim C4: a click on a tracking id matching no persisted
`CampaignEmail` fails with `TrackingNotFound`, the state — in particular the
`email_tracking` log — is unchanged, and the result is the data-free
`notFound` constructor, identical for every unmatched token, so nothing
about the valid token space is revealed. -/
theorem record_email_click_not_found (s : TrackState) (tid ip ua : String)
    (now : Nat) (h : ∀ e ∈ s.emails, e.click_tracking_id ≠ tid) :
    record_email_click s tid ip ua now = (s, TrackResult.notFound) ∧
    (record_email_click s tid ip ua now).1.tracking = s.tracking := by
  have hfind : s.emails.find? (fun e => e.click_tracking_id == tid) = none := by
    rw [List.find?_eq_none]
    intro e he
    simp [h e he]
  constructor
  · unfold record_email_click
    rw [hfind]
  · unfold record_email_click
    rw [hfind]

/-- Witness for C4: querying the unknown token `tok-x` against a store that
only knows `tok-a` returns `notFound` and leaves the state alone. -/
theorem record_email_click_not_found_witness :
    record_email_click exTrackState "tok-x" "10.0.0.9" "ua9" 42
      = (exTrackState, TrackResult.notFound) :=
  (record_email_click_not_found exTrackState "tok-x" "10.0.0.9" "ua9" 42
    (by decide)).1

/-- Claim C1 (code bug): the unconditional-update implementation of click
recording (spec §9) breaks the exactly-one-first-click requirement.  With
`emailA.clicked_at = null` and two concurrent invocations on `tok-a` whose
reads both precede the writes, both invocations observe null and both fire
the first-click path — the second even overwrites the stamped `clicked_at`
with its own timestamp — while each appends its log row. -/
theorem recordClick_race_double_first_click :
    firstClickCount (runClickSchedule concClickInit [0, 1, 0, 1, 0, 1]) = 2 ∧
    (runClickSchedule concClickInit [0, 1, 0, 1, 0, 1]).store.tracking.length = 2 ∧
    (runClickSchedule concClickInit [0, 1, 0, 1, 0, 1]).store.emails.map
      (fun e => e.clicked_at) = [some 11] := by
  decide

/-- Claim C6: deleting a campaign removes exactly its own rows.  Afterwards
no remaining `campaign_emails` row references the deleted campaign, no
remaining `email_tracking` row references one of its (deleted) emails,
every email, log row and campaign not belonging to the deleted campaign
survives, and nothing that was not in the store before appears. -/
theorem deleteCampaign_cascade_spec (s : Store) (cid : String) :
    (∀ e ∈ (deleteCampaign s cid).emails, e.campaign_id ≠ cid) ∧
    (∀ t ∈ (deleteCampaign s cid).tracking, ∀ e ∈ s.emails,
        e.campaign_id = cid → t.email_id ≠ e.id) ∧
    (∀ e ∈ s.emails, e.campaign_id ≠ cid → e ∈ (deleteCampaign s cid).emails) ∧
    (∀ t ∈ s.tracking, t.campaign_id ≠ cid →
        (∀ e ∈ s.emails, e.campaign_id = cid → t.email_id ≠ e.id) →
        t ∈ (deleteCampaign s cid).tracking) ∧
    (∀ c ∈ s.campaigns, c.id ≠ cid → c ∈ (deleteCampaign s cid).campaigns) ∧
    (∀ e ∈ (deleteCampaign s cid).emails, e ∈ s.emails) ∧
    (∀ t ∈ (deleteCampaign s cid).tracking, t ∈ s.tracking) ∧
    (∀ c ∈ (deleteCampaign s cid).campaigns, c ∈ s.campaigns) := by
  refine ⟨?_, ?_, ?_, ?_, ?_, ?_, ?_, ?_⟩
  · intro e he
    simp [deleteCampaign, List.mem_filter] at he
    exact he.2
  · intro t ht e he hc heq
    simp [deleteCampaign, List.mem_filter] at ht
    exact ht.2.2 e he hc heq.symm
  · intro e he hne
    simp [deleteCampaign, List.mem_filter]
    exact ⟨he, hne⟩
  · intro t ht hne hemails
    simp [deleteCampaign, List.mem_filter]
    refine ⟨ht, hne, ?_⟩
    intro x hx hxc hxeq
    exact (hemails x hx hxc) hxeq.symm
  · intro c hc hne
    simp [deleteCampaign, List.mem_filter]
    exact ⟨hc, hne⟩
  · intro e he
    simp [deleteCampaign, List.mem_filter] at he
    exact he.1
  · intro t ht
    simp [deleteCampaign, List.mem_filter] at ht
    exact ht.1
  · intro c hc
    simp [deleteCampaign, List.mem_filter] at hc
    exact hc.1

/-- Witness for C6: deleting campaign `c1` from `exStore` keeps campaign
`c2`'s email and drops `c1`'s email. -/
theorem deleteCampaign_cascade_witness :
    emailB ∈ (deleteCampaign exStore "c1").emails ∧
    emailB.campaign_id ≠ "c1" :=
  ⟨(deleteCampaign_cascade_spec exStore "c1").2.2.1 emailB (by decide) (by decide),
   by decide⟩

/-- Appending an element whose image is fresh keeps a mapped list
duplicate-free. -/
theorem nodup_map_append_singleton {α β : Type} (l : List α) (x : α) (f : α → β)
    (h : (l.map f).Nodup) (hx : ∀ a ∈ l, f a ≠ f x) :
    ((l ++ [x]).map f).Nodup := by
  rw [List.map_append, List.nodup_append]
  refine ⟨h, by simp, ?_⟩
  intro a ha hb
  simp at hb
  simp only [List.mem_map] at ha
  obtain ⟨b, hbl, hba⟩ := ha
  exact hx b hbl (hba.trans hb)

/-- Filtering keeps a mapped list duplicate-free. -/
theorem nodup_map_filter {α β : Type} (l : List α) (p : α → Bool) (f : α → β)
    (h : (l.map f).Nodup) : ((l.filter p).map f).Nodup :=
  h.sublist ((List.filter_sublist l).map f)

/-- Updating rows through a field-preserving function keeps a mapped list
duplicate-free. -/
theorem nodup_map_map {α β : Type} (l : List α) (g : α → α) (f : α → β)
    (hg : ∀ a, f (g a) = f a) (h : (l.map f).Nodup) :
    ((l.map g).map f).Nodup := by
  rw [List.map_map]
  have hfg : (f ∘ g) = f := funext fun a => hg a
  rw [hfg]
  exact h

/-- Every store operation preserves duplicate-freeness of the primary keys
and of the tracking tokens of `campaign_emails`. -/
theorem applyEmailsOp_preserves_nodup (s : List EmailRow) (op : EmailsOp)
    (hid : (s.map EmailRow.id).Nodup)
    (htok : (s.map EmailRow.click_tracking_id).Nodup) :
    ((applyEmailsOp s op).map EmailRow.id).Nodup ∧
    ((applyEmailsOp s op).map EmailRow.click_tracking_id).Nodup := by
  cases op with
  | insertEmail e =>
      simp only [applyEmailsOp]
      by_cases hc : s.any (fun e0 =>
          e0.id == e.id || e0.click_tracking_id == e.click_tracking_id) = true
      · rw [if_pos hc]
        exact ⟨hid, htok⟩
      · rw [if_neg hc]
        have hfresh : ∀ a ∈ s, a.id ≠ e.id ∧
            a.click_tracking_id ≠ e.click_tracking_id := by
          intro a ha
          have h1 : ¬ ((a.id == e.id ||
              a.click_tracking_id == e.click_tracking_id) = true) := by
            intro hp
            exact hc (List.any_eq_true.mpr ⟨a, ha, hp⟩)
          simp only [Bool.or_eq_true, beq_iff_eq, not_or] at h1
          exact h1
        exact ⟨nodup_map_append_singleton s e _ hid (fun a ha => (hfresh a ha).1),
               nodup_map_append_singleton s e _ htok (fun a ha => (hfresh a ha).2)⟩
  | markSent eid t =>
      simp only [applyEmailsOp]
      constructor
      · exact nodup_map_map s _ _
          (fun a => by by_cases hh : (a.id == eid) = true <;> simp [hh]) hid
      · exact nodup_map_map s _ _
          (fun a => by by_cases hh : (a.id == eid) = true <;> simp [hh]) htok
  | recordFirstClick tid t =>
      simp only [applyEmailsOp]
      constructor
      · exact nodup_map_map s _ _
          (fun a => by
            by_cases hh : (a.click_tracking_id == tid && a.clicked_at == none) = true <;>
              simp [hh]) hid
      · exact nodup_map_map s _ _
          (fun a => by
            by_cases hh : (a.click_tracking_id == tid && a.clicked_at == none) = true <;>
              simp [hh]) htok
  | deleteCampaignEmails cid =>
      simp only [applyEmailsOp]
      exact ⟨nodup_map_filter s _ _ hid, nodup_map_filter s _ _ htok⟩

/-- In every reachable `campaign_emails` state the primary keys and the
tracking tokens are each duplicate-free. -/
theorem reachableEmails_nodup (s : List EmailRow) (h : ReachableEmails s) :
    (s.map EmailRow.id).Nodup ∧ (s.map EmailRow.click_tracking_id).Nodup := by
  induction h with
  | empty => exact ⟨List.nodup_nil, List.nodup_nil⟩
  | step s op _ ih => exact applyEmailsOp_preserves_nodup s op ih.1 ih.2

/-- No store operation rewrites the tracking token of an existing row: a row
surviving under the same primary key keeps its `click_tracking_id`. -/
theorem applyEmailsOp_token_immutable (s : List EmailRow) (op : EmailsOp)
    (hid : (s.map EmailRow.id).Nodup) :
    ∀ e ∈ s, ∀ e' ∈ applyEmailsOp s op, e'.id = e.id →
      e'.click_tracking_id = e.click_tracking_id := by
  intro e he e' he' heq
  have hinj := List.inj_on_of_nodup_map hid
  cases op with
  | insertEmail x =>
      simp only [applyEmailsOp] at he'
      by_cases hc : s.any (fun e0 =>
          e0.id == x.id || e0.click_tracking_id == x.click_tracking_id) = true
      · rw [if_pos hc] at he'
        rw [hinj he' he heq]
      · rw [if_neg hc] at he'
        rcases List.mem_append.mp he' with h1 | h2
        · rw [hinj h1 he heq]
        · exfalso
          have hx : e' = x := by simpa using h2
          apply hc
          refine List.any_eq_true.mpr ⟨e, he, ?_⟩
          have : e.id == x.id := by
            rw [← hx, heq]
            exact beq_self_eq_true e.id
          simp [this]
  | markSent eid t =>
      simp only [applyEmailsOp] at he'
      obtain ⟨e0, he0, rfl⟩ := List.mem_map.mp he'
      have hid0 : (if (e0.id == eid) = true
          then { e0 with sent_at := some t } else e0).id = e0.id := by
        by_cases hh : (e0.id == eid) = true <;> simp [hh]
      have htok0 : (if (e0.id == eid) = true
          then { e0 with sent_at := some t } else e0).click_tracking_id
          = e0.click_tracking_id := by
        by_cases hh : (e0.id == eid) = true <;> simp [hh]
      rw [htok0, hinj he0 he (by rw [← hid0]; exact heq)]
  | recordFirstClick tid t =>
      simp only [applyEmailsOp] at he'
      obtain ⟨e0, he0, rfl⟩ := List.mem_map.mp he'
      have hid0 : (if (e0.click_tracking_id == tid && e0.clicked_at == none) = true
          then { e0 with clicked_at := some t } else e0).id = e0.id := by
        by_cases hh : (e0.click_tracking_id == tid && e0.clicked_at == none) = true <;>
          simp [hh]
      have htok0 : (if (e0.click_tracking_id == tid && e0.clicked_at == none) = true
          then { e0 with clicked_at := some t } else e0).click_tracking_id
          = e0.click_tracking_id := by
        by_cases hh : (e0.click_tracking_id == tid && e0.clicked_at == none) = true <;>
          simp [hh]
      rw [htok0, hinj he0 he (by rw [← hid0]; exact heq)]
  | deleteCampaignEmails cid =>
      simp only [applyEmailsOp] at he'
      rw [hinj (List.mem_filter.mp he').1 he heq]

/-- Claim C2: in every reachable `campaign_emails` state, tracking tokens are
pairwise distinct — any two distinct persisted rows carry different
`click_tracking_id` values — and no store operation changes the token of a
surviving row after creation. -/
theorem clickTrackingId_unique_and_immutable (s : List EmailRow)
    (h : ReachableEmails s) :
    (∀ e ∈ s, ∀ e' ∈ s, e ≠ e' →
      e.click_tracking_id ≠ e'.click_tracking_id) ∧
    (∀ op : EmailsOp, ∀ e ∈ s, ∀ e' ∈ applyEmailsOp s op, e'.id = e.id →
      e'.click_tracking_id = e.click_tracking_id) := by
  obtain ⟨hid, htok⟩ := reachableEmails_nodup s h
  constructor
  · intro e he e' he' hne htokeq
    exact hne (List.inj_on_of_nodup_map htok he he' htokeq)
  · intro op
    exact applyEmailsOp_token_immutable s op hid

/-- Witness for C2: the state reached by inserting `emailA` and then
`emailB` is reachable, and the two rows carry different tokens. -/
theorem clickTrackingId_unique_witness :
    emailA.click_tracking_id ≠ emailB.click_tracking_id :=
  (clickTrackingId_unique_and_immutable
      (applyEmailsOp (applyEmailsOp [] (.insertEmail emailA)) (.insertEmail emailB))
      (ReachableEmails.step _ _ (ReachableEmails.step _ _ ReachableEmails.empty))).1
    emailA (by decide) emailB (by decide) (by decide)

end PhishSchool
